import Mathlib

/-
Verification of the http_pipelining repository (src/http_pipelining.py).

The development shallowly embeds the Python source into Lean:
byte buffers become `List Char` (all traffic in scope is ASCII text),
Python slicing/splitting/searching become explicit executable helpers with
Python's clamping semantics, fallible code returns `Except`, and the
socket layer is abstracted as an oracle giving each attempt's received
bytes (or a connection failure).  All definitions follow the source;
definitions written from the specification's words are named `claim...`
and documented as such.
-/

namespace HttpPipelining

/-! ## Python primitive helpers -/

/-- The CRLF line separator `sep = '\r\n'` of the source. -/
def sepL : List Char := ['\r', '\n']

/-- The header/body separator `data_sep = sep * 2` of the source. -/
def dataSepL : List Char := ['\r', '\n', '\r', '\n']

/-- Normalise a Python slice index: negative indices count from the end,
and everything is clamped into `[0, n]`. -/
def pySliceIdx (n : Nat) (i : Int) : Nat :=
  if i < 0 then n - min n i.natAbs else min i.toNat n

/-- Python slice `s[a:b]` on a character list. -/
def pySlice (s : List Char) (a b : Int) : List Char :=
  let lo := pySliceIdx s.length a
  let hi := pySliceIdx s.length b
  (s.drop lo).take (hi - lo)

/-- Python slice `s[a:]` on a character list. -/
def pySliceFrom (s : List Char) (a : Int) : List Char :=
  s.drop (pySliceIdx s.length a)

/-- Auxiliary for `pyFind`: index of the first occurrence of `pat`. -/
def pyFindAux (pat : List Char) : List Char → Option Nat
  | [] => if pat = [] then some 0 else none
  | c :: rest =>
    if pat.isPrefixOf (c :: rest) then some 0
    else (pyFindAux pat rest).map (· + 1)

/-- Python `s.find(pat)`: first index of `pat` in `s`, `-1` if absent. -/
def pyFind (pat s : List Char) : Int :=
  match pyFindAux pat s with
  | some n => (n : Int)
  | none => -1

/-- Fuel-driven core of `countOccur`; fuel `s.length` always suffices. -/
def countOccurF (pat : List Char) : Nat → List Char → Nat
  | 0, _ => 0
  | _, [] => 0
  | fuel + 1, c :: rest =>
    if pat ≠ [] ∧ pat.isPrefixOf (c :: rest) then
      1 + countOccurF pat fuel ((c :: rest).drop pat.length)
    else countOccurF pat fuel rest

/-- Python `s.count(pat)`: non-overlapping occurrences, left to right. -/
def countOccur (pat s : List Char) : Nat :=
  countOccurF pat s.length s

/-- Fuel-driven core of `pySplit`. -/
def pySplitGo (sp : List Char) : Nat → List Char → List Char → List (List Char)
  | _, cur, [] => [cur.reverse]
  | 0, cur, s => [cur.reverse ++ s]
  | fuel + 1, cur, c :: rest =>
    if sp ≠ [] ∧ sp.isPrefixOf (c :: rest) then
      cur.reverse :: pySplitGo sp fuel [] (rest.drop (sp.length - 1))
    else pySplitGo sp fuel (c :: cur) rest

/-- Python `s.split(sp)` (no maxsplit): split on every occurrence of `sp`. -/
def pySplit (sp s : List Char) : List (List Char) :=
  pySplitGo sp s.length [] s

/-- Fuel-driven core of `pySplitN`; the first `Nat` is the remaining
maxsplit budget, the second is fuel. -/
def pySplitNGo (sp : List Char) : Nat → Nat → List Char → List Char → List (List Char)
  | _, _, cur, [] => [cur.reverse]
  | 0, _, cur, s => [cur.reverse ++ s]
  | _, 0, cur, s => [cur.reverse ++ s]
  | m + 1, fuel + 1, cur, c :: rest =>
    if sp ≠ [] ∧ sp.isPrefixOf (c :: rest) then
      cur.reverse :: pySplitNGo sp m fuel [] (rest.drop (sp.length - 1))
    else pySplitNGo sp (m + 1) fuel (c :: cur) rest

/-- Python `s.split(sp, n)`: split on at most `n` occurrences of `sp`. -/
def pySplitN (sp : List Char) (n : Nat) (s : List Char) : List (List Char) :=
  pySplitNGo sp n s.length [] s

/-- Python `s.strip()`: remove leading and trailing whitespace. -/
def pyStrip (s : List Char) : List Char :=
  ((s.dropWhile Char.isWhitespace).reverse.dropWhile Char.isWhitespace).reverse

/-- Decimal value of a digit string. -/
def digitsVal (ds : List Char) : Nat :=
  ds.foldl (fun acc c => acc * 10 + (c.toNat - '0'.toNat)) 0

/-- Auxiliary for `pyIntOf`: signless digit parse. -/
def pyIntCore (sign : Int) (ds : List Char) : Option Int :=
  if ds ≠ [] ∧ ds.all Char.isDigit then some (sign * (digitsVal ds : Int)) else none

/-- Python `int(s)` on a string: optional sign, at least one digit,
surrounding whitespace tolerated; `none` models a raised `ValueError`. -/
def pyIntOf (s : List Char) : Option Int :=
  match pyStrip s with
  | '+' :: ds => pyIntCore 1 ds
  | '-' :: ds => pyIntCore (-1) ds
  | ds => pyIntCore 1 ds

/-! ## Data model: parsed responses and the case-insensitive header map -/

/-- The fields of `requests.Response` that the source populates.
Headers are an insertion-ordered association list with lower-cased keys
(the source's `CaseInsensitiveDict`); `content` is `none` when the source
stores `None` in `resp._content`. -/
structure Resp where
  status_code : Int
  reason : String
  headers : List (String × String)
  content : Option (List Char)
  url : String
deriving DecidableEq

/-- `CaseInsensitiveDict.__setitem__`: the key is lower-cased; writing an
existing key overwrites in place, otherwise the pair is appended. -/
def ciSet (d : List (String × String)) (k v : String) : List (String × String) :=
  let kl := (k.data.map Char.toLower).asString
  if d.any (fun p => p.1 == kl) then
    d.map (fun p => if p.1 == kl then (kl, v) else p)
  else d ++ [(kl, v)]

/-- Plain `dict.get` lookup (the source calls `.get` with an already
lower-case key, bypassing the case-insensitive wrapper). -/
def dictGet (d : List (String × String)) (k : String) : Option String :=
  (d.find? (fun p => p.1 == k)).map (fun p => p.2)

/-- `prepare_headers`: each raw header line is split on the first `':'`
(a line with no colon raises, modelled as `.error`), both sides stripped,
and inserted into the case-insensitive map. -/
def prepHeadersGo (d : List (String × String)) :
    List (List Char) → Except Unit (List (String × String))
  | [] => .ok d
  | h :: rest =>
    match pySplitN [':'] 1 h with
    | [l, r] => prepHeadersGo (ciSet d (pyStrip l).asString (pyStrip r).asString) rest
    | _ => .error ()

/-- `prepare_headers` of the source. -/
def prepare_headers (raw_headers : List (List Char)) :
    Except Unit (List (String × String)) :=
  prepHeadersGo [] raw_headers

/-! ## ResponseFramer: `get_response` and `parse_response` -/

/-- `get_response` of the source: frame one response off the front of
`raw`.  `.error ()` models any exception raised inside the Python body
(status-line unpack failure, `int` failure, header-line unpack failure).
Note the faithful transcription of the source's body slice
`raw[headers_end + len(data_sep) : offset]`, which uses the
Content-Length value `offset` as an absolute end index. -/
def get_response (method : String) (raw : List Char) (url : String) :
    Except Unit (Resp × List Char) :=
  let headers_end : Int := pyFind dataSepL raw
  let headRegion := pySlice raw 0 headers_end
  let lines := pySplit sepL headRegion
  let top := lines.headD []
  let raw_headers := lines.tail
  match pySplitN [' '] 2 top with
  | [_, rcode, rmsg] =>
    match pyIntOf rcode with
    | none => .error ()
    | some code =>
      match prepare_headers raw_headers with
      | .error _ => .error ()
      | .ok headers =>
        let offsetE : Except Unit Int :=
          if method ≠ "HEAD" then
            match dictGet headers "content-length" with
            | some v => match pyIntOf v.data with
              | some n => .ok n
              | none => .error ()
            | none => .ok 0
          else .ok 0
        match offsetE with
        | .error _ => .error ()
        | .ok offset =>
          let content : Option (List Char) :=
            if offset ≠ 0 then some (pySlice raw (headers_end + 4) offset) else none
          let leftover := pySliceFrom raw (headers_end + 4 + offset)
          .ok ({ status_code := code, reason := rmsg.asString, headers := headers,
                 content := content, url := url }, leftover)
  | _ => .error ()

/-- Errors of `parse_response`: `parseFail` models an exception from
`get_response` re-raised bare (it carries no `ready_responses`
attribute); `dataNotEnough` models the `RuntimeError("data is not
enough")` that carries `ready_responses`. -/
inductive FrameErr where
  | parseFail
  | dataNotEnough (ready : List Resp)
deriving DecidableEq

/-- The `for idx, url in enumerate(urls)` loop of `parse_response`:
frame one response per url, stopping early when the buffer is consumed. -/
def parseGo (method : String) (content : List Char) (acc : List Resp) :
    List String → Except FrameErr (List Resp)
  | [] => .ok acc
  | url :: rest =>
    match get_response method content url with
    | .error _ => .error .parseFail
    | .ok (resp, leftover) =>
      if leftover = [] then .ok (acc ++ [resp])
      else parseGo method leftover (acc ++ [resp]) rest

/-- `parse_response` of the source: run the framing loop, then raise
`dataNotEnough` (with the responses framed so far) when fewer responses
than urls were produced. -/
def parse_response (method : String) (urls : List String) (content : List Char) :
    Except FrameErr (List Resp) :=
  match parseGo method content [] urls with
  | .error e => .error e
  | .ok resps =>
    if resps.length ≠ urls.length then .error (.dataNotEnough resps) else .ok resps

/-! ## Transport: the `recvall` loop -/

/-- The `while` loop of `recvall`.  `packets` models the values returned
by successive `sock.recv` calls; exhausting the list models a receive
timeout (the bare `except` returns the accumulated data), and an empty
packet models the peer closing the connection (`if not packet: break`).
The loop condition `data.count(data_sep) != resp_count` is checked before
every read, exactly as in the source. -/
def recvallGo (respCount : Nat) (data : List Char) : List (List Char) → List Char
  | [] => data
  | p :: rest =>
    if countOccur dataSepL data = respCount then data
    else if p = [] then data
    else recvallGo respCount (data ++ p) rest

/-- `recvall` of the source, starting from an empty buffer. -/
def recvall (respCount : Nat) (packets : List (List Char)) : List Char :=
  recvallGo respCount [] packets

/-! ## URL parsing: the regex of `http_pipelining` -/

/-- The non-greedy tail of the regex `(https?):\/\/(.*?)(:\d+)?\/` after
the scheme: try each host split point left to right; at each point the
optional port group `:\d+` (maximal digits immediately followed by `/`)
is tried first, then a bare `/`; otherwise the host (`.` matches anything
but a newline) absorbs the character.  `acc` holds the host characters
consumed so far, reversed. -/
def matchHostPort (acc : List Char) : List Char → Option (String × Option (List Char))
  | [] => none
  | c :: rest =>
    if c = '/' then some (acc.reverse.asString, none)
    else
      let ds := rest.takeWhile Char.isDigit
      if c = ':' ∧ ds ≠ [] ∧ (rest.drop ds.length).headD ' ' = '/' then
        some (acc.reverse.asString, some ds)
      else if c = '\n' then none
      else matchHostPort (c :: acc) rest

/-- Try the whole regex anchored at the current position. -/
def matchAt (s : List Char) : Option (String × String × Option (List Char)) :=
  if "https://".data.isPrefixOf s then
    (matchHostPort [] (s.drop 8)).map (fun hp => ("https", hp.1, hp.2))
  else if "http://".data.isPrefixOf s then
    (matchHostPort [] (s.drop 7)).map (fun hp => ("http", hp.1, hp.2))
  else none

/-- Leftmost match of the regex, as `re.findall(...)[0]` would select. -/
def findUrlMatchL : List Char → Option (String × String × Option (List Char))
  | [] => none
  | c :: rest =>
    match matchAt (c :: rest) with
    | some m => some m
    | none => findUrlMatchL rest

/-- `re.findall(r'(https?):\/\/(.*?)(:\d+)?\/', url)[0]` as an `Option`:
`none` models the `IndexError` on an empty match list. -/
def findUrlMatch (u : String) : Option (String × String × Option (List Char)) :=
  findUrlMatchL u.data

/-- Scheme-dependent default port of the source. -/
def defaultPort (scheme : String) : Nat := if scheme = "https" then 443 else 80

/-- The port normalisation of `http_pipelining`:
`port = port and int(port[1:] or 0)` followed by `port or default_port`.
An absent or zero explicit port falls back to the scheme default. -/
def resolveTarget (u : String) : Option (String × String × Nat) :=
  (findUrlMatch u).map (fun m =>
    let port := match m.2.2 with
      | none => defaultPort m.1
      | some ds => if digitsVal ds = 0 then defaultPort m.1 else digitsVal ds
    (m.1, m.2.1, port))

/-- Whether `perform` takes the TLS branch for a batch whose first url is
`u`, as called from `http_pipelining`: `use_ssl` is never passed (it
stays `None`), so `use_ssl or port == 443` reduces to `port == 443` on
the resolved port. -/
def usesTls (u : String) : Option Bool :=
  (resolveTarget u).map (fun t => t.2.2 == 443)

/-! ## Entry points: `http_pipelining` and the retry orchestrator -/

/-- What one connection attempt yields from the network: a connection
level failure (connect/handshake/send error), or the raw bytes that
`recvall` accumulated. -/
inductive NetOutcome where
  | connFail
  | recvd (data : List Char)

/-- Errors observable from the entry points.  `indexError` is the
`IndexError` on a url that the regex does not match; `connError` is a
connection-level exception; `parseFail` and `dataNotEnough` come from
`parse_response`; `forcelistHit` is the `RuntimeError("Response with
code from forcelist")` carrying `ready_responses` and
`forcelist_responses`; `nameError` is the `NameError` raised by the
undefined name `handled_urls` in the retry loop. -/
inductive PipeErr where
  | indexError
  | connError
  | parseFail
  | dataNotEnough (ready : List Resp)
  | forcelistHit (ready : List Resp) (forced : List Resp)
  | nameError
deriving DecidableEq

/-- `http_pipelining` of the source: empty batches return `[]` before any
network activity; otherwise the first url is parsed (an unmatched url
raises `IndexError`), and one attempt of `perform` runs, whose socket
work is abstracted by `net`. -/
def http_pipelining (urls : List String) (method : String) (net : NetOutcome) :
    Except PipeErr (List Resp) :=
  match urls with
  | [] => .ok []
  | u :: _ =>
    match findUrlMatch u with
    | none => .error .indexError
    | some _ =>
      match net with
      | .connFail => .error .connError
      | .recvd data =>
        match parse_response method urls data with
        | .error .parseFail => .error .parseFail
        | .error (.dataNotEnough r) => .error (.dataNotEnough r)
        | .ok rs => .ok rs

/-- `getattr(ex, 'ready_responses', None)`. -/
def readyOf : PipeErr → Option (List Resp)
  | .dataNotEnough r => some r
  | .forcelistHit r _ => some r
  | _ => none

/-- The `for it in range(0, max_retries)` loop of
`http_pipelining_with_retries`, one constructor-step per iteration.
On an exception whose `ready_responses` is a non-empty list, the source
evaluates `[u for u in need_urls if not u in handled_urls]` where
`handled_urls` is an undefined name: with a non-empty `need_urls` this
raises `NameError` out of the function; with an empty `need_urls` the
comprehension is empty and never evaluates the condition. -/
def retryGo (method : String) (forcelist : List Int) (net : Nat → NetOutcome) :
    Nat → Nat → List Resp → List String → Option PipeErr → Except PipeErr (List Resp)
  | 0, _, totalResponses, _, totalEx =>
    match totalEx with
    | some e => .error e
    | none => .ok totalResponses
  | remaining + 1, it, totalResponses, urlsToPerform, _ =>
    let attempt : Except PipeErr (List Resp) :=
      match http_pipelining urlsToPerform method (net it) with
      | .ok responses =>
        let forced := responses.filter (fun resp => forcelist.contains resp.status_code)
        if forced.isEmpty then .ok responses
        else .error (.forcelistHit responses forced)
      | .error e => .error e
    match attempt with
    | .ok responses => .ok (totalResponses ++ responses)
    | .error e =>
      match readyOf e with
      | some rr =>
        if rr.isEmpty then
          retryGo method forcelist net remaining (it + 1) totalResponses urlsToPerform (some e)
        else if urlsToPerform.isEmpty then
          .ok (totalResponses ++ rr.filter (fun resp => resp.status_code < 500))
        else .error .nameError
      | none =>
        retryGo method forcelist net remaining (it + 1) totalResponses urlsToPerform (some e)

/-- `http_pipelining_with_retries` of the source. -/
def http_pipelining_with_retries (urls : List String) (method : String)
    (maxRetries : Nat) (forcelist : List Int) (net : Nat → NetOutcome) :
    Except PipeErr (List Resp) :=
  retryGo method forcelist net maxRetries 0 [] urls none

/-! ## PacketBuilder: `prepare_packet` -/

/-- `intput_headers_str` of the source: the caller-supplied header lines,
each CRLF-terminated, in mapping order. -/
def headersStrL (headers : List (String × String)) : List Char :=
  (headers.map (fun kv => kv.1.data ++ ": ".data ++ kv.2.data ++ sepL)).flatten

/-- The per-url f-string of `prepare_packet`:
`METHOD url HTTP/1.1\r\nHost: host\r\n<caller headers>`. -/
def reqMsgL (method host : String) (headers : List (String × String)) (url : String) :
    List Char :=
  method.data.map Char.toUpper ++ [' '] ++ url.data ++ " HTTP/1.1".data ++ sepL
    ++ "Host: ".data ++ host.data ++ sepL ++ headersStrL headers

/-- Python `sep.join(list)`. -/
def pyJoinL (s : List Char) : List (List Char) → List Char
  | [] => []
  | [a] => a
  | a :: b :: rest => a ++ s ++ pyJoinL s (b :: rest)

/-- `prepare_packet` of the source: the request messages joined with the
CRLF separator, then `Connection: close\r\n` unless keep-alive, then a
double CRLF. -/
def prepare_packet (urls : List String) (host method : String)
    (headers : List (String × String)) (keepAlive : Bool) : List Char :=
  pyJoinL sepL (urls.map (reqMsgL method host headers))
    ++ (if keepAlive then [] else "Connection: close".data ++ sepL)
    ++ sepL ++ sepL

/-- Written from claim C5's words, not from the source: the in-order
concatenation of the request messages with no blank-line gap between
consecutive requests, followed by `Connection: close\r\n\r\n` when
keep-alive is false and by `\r\n\r\n` otherwise. -/
def claimPacket (urls : List String) (host method : String)
    (headers : List (String × String)) (keepAlive : Bool) : List Char :=
  (urls.map (reqMsgL method host headers)).flatten
    ++ (if keepAlive then sepL ++ sepL else "Connection: close".data ++ sepL ++ sepL)

/-- Written from the amended claim C5: every request message except the
last is followed by one separating CRLF (a blank-line gap, since each
message already ends in CRLF), and the last is followed directly by the
`Connection: close\r\n` line (absent under keep-alive) and a double CRLF. -/
def claimPacketAmended (urls : List String) (host method : String)
    (headers : List (String × String)) (keepAlive : Bool) : List Char :=
  (urls.dropLast.map (fun u => reqMsgL method host headers u ++ sepL)).flatten
    ++ reqMsgL method host headers (urls.getLastD "")
    ++ (if keepAlive then [] else "Connection: close".data ++ sepL)
    ++ sepL ++ sepL

/-! ## Shared lemmas -/

/-- Python `sep.join` in the shape of the amended claim C5: every element
but the last is followed by one copy of the separator, then the last
element follows directly. -/
theorem pyJoinL_structure (s : List Char) :
    ∀ l : List (List Char), l ≠ [] →
      pyJoinL s l = (l.dropLast.map (· ++ s)).flatten ++ l.getLastD []
  | [], h => absurd rfl h
  | [a], _ => by simp [pyJoinL]
  | a :: b :: t, _ => by
    have ih := pyJoinL_structure s (b :: t) (List.cons_ne_nil _ _)
    simp only [pyJoinL] at ih ⊢
    rw [ih]
    simp [List.append_assoc, List.getLastD_cons]

/-! ## Claim theorems -/

/-- C1 (code_bug): the round-trip framing claim fails on a single
well-formed response with `Content-Length: 5` and body `hello`: the
source's body slice `raw[headers_end + len(data_sep) : offset]` uses the
Content-Length value as an absolute end index (the adjacent leftover
slice adds the base offset correctly), so the parsed body is the empty
byte string instead of the five synthetic body bytes. -/
theorem c1_body_slice_bug :
    parse_response "GET" ["http://x/a"]
      ("HTTP/1.1 200 OK\r\nContent-Length: 5\r\n\r\nhello".data) =
      .ok [{ status_code := 200, reason := "OK",
             headers := [("content-length", "5")],
             content := some [], url := "http://x/a" }] ∧
    ("hello".data ≠ ([] : List Char)) := ⟨rfl, by decide⟩

/-- C5 counterexample: for two urls the built packet is not the gap-free
concatenation described by the claim — `'\r\n'.join` inserts a CRLF
(hence a blank line, as every request message already ends in CRLF)
between consecutive request messages. -/
theorem c5_no_gap_counterexample :
    prepare_packet ["http://x/a", "http://x/b"] "x" "HEAD" [] true ≠
      claimPacket ["http://x/a", "http://x/b"] "x" "HEAD" [] true := by decide

/-- C5 (amended): for every non-empty url list the packet equals the
request messages in input order with one separating CRLF between
consecutive messages (a blank-line gap), the last message followed by
`Connection: close\r\n` iff keep-alive is false, then a double CRLF. -/
theorem c5_packet_structure (urls : List String) (host method : String)
    (headers : List (String × String)) (keepAlive : Bool) (h : urls ≠ []) :
    prepare_packet urls host method headers keepAlive =
      claimPacketAmended urls host method headers keepAlive := by
  unfold prepare_packet claimPacketAmended
  rw [pyJoinL_structure sepL (urls.map (reqMsgL method host headers))
    (by simpa using h)]
  rw [← List.map_dropLast, List.map_map]
  cases hu : urls.getLast? with
  | none => exact absurd (List.getLast?_eq_none_iff.mp hu) h
  | some a =>
    have h1 : (urls.map (reqMsgL method host headers)).getLastD [] =
        reqMsgL method host headers a := by
      simp [List.getLastD_eq_getLast?, List.getLast?_map, hu]
    have h2 : urls.getLastD "" = a := by
      simp [List.getLastD_eq_getLast?, hu]
    rw [h1, h2]
    rfl

/-- C5 witness: the amended structure theorem at a concrete input. -/
theorem c5_packet_structure_witness :
    prepare_packet ["http://x/a"] "x" "HEAD" [] false =
      claimPacketAmended ["http://x/a"] "x" "HEAD" [] false :=
  c5_packet_structure ["http://x/a"] "x" "HEAD" [] false (List.cons_ne_nil _ _)

/-- C6 counterexample: an https url with an explicit port other than 443
does NOT take the TLS branch — `http_pipelining` never passes `use_ssl`,
so `use_ssl or port == 443` only looks at the resolved port. -/
theorem c6_https_explicit_port_counterexample :
    (findUrlMatch "https://h:8443/x").map (fun m => m.1) = some "https" ∧
    usesTls "https://h:8443/x" = some false := ⟨rfl, rfl⟩

/-- C6 (amended): TLS is selected iff the resolved port is 443: with no
explicit port the scheme decides (443 is the https default), and with an
explicit port only the literal value decides (a zero port falls back to
the scheme default), regardless of scheme. -/
theorem c6_tls_iff_port443 :
    (∀ u sch host, findUrlMatch u = some (sch, host, none) →
      usesTls u = some (sch == "https")) ∧
    (∀ u sch host ds, findUrlMatch u = some (sch, host, some ds) →
      usesTls u = some (if digitsVal ds = 0 then sch == "https"
                        else digitsVal ds == 443)) := by
  constructor
  · intro u sch host h
    simp only [usesTls, resolveTarget, h, Option.map_some', defaultPort]
    by_cases hs : sch = "https" <;> simp [hs]
  · intro u sch host ds h
    simp only [usesTls, resolveTarget, h, Option.map_some', defaultPort]
    by_cases h0 : digitsVal ds = 0 <;> by_cases hs : sch = "https" <;>
      simp [h0, hs]

/-- C6 witness: the amended theorem applied to a default-port https url. -/
theorem c6_tls_iff_port443_witness :
    usesTls "https://h/x" = some (("https" : String) == "https") :=
  c6_tls_iff_port443.1 "https://h/x" "https" "h" (by decide)

/-- C7 counterexample: after the first read the buffer already holds two
double-CRLF separators — at least the expected one — yet the loop
condition `count != resp_count` is not equality, so the loop keeps
reading and the second packet ends up in the returned buffer. -/
theorem c7_overshoot_counterexample :
    countOccur dataSepL ("a\r\n\r\nb\r\n\r\n".data) = 2 ∧
    recvall 1 ["a\r\n\r\nb\r\n\r\n".data, "XYZ".data] =
      "a\r\n\r\nb\r\n\r\n".data ++ "XYZ".data ∧
    recvall 1 ["a\r\n\r\nb\r\n\r\n".data, "XYZ".data] ≠
      "a\r\n\r\nb\r\n\r\n".data := by
  refine ⟨rfl, rfl, ?_⟩
  decide

/-- C7 (amended): the receive loop stops reading exactly when the buffer
holds exactly `resp_count` separators (checked before every read); it
also returns the accumulated buffer, rather than failing, when the reads
are exhausted (timeout) or a read returns zero bytes (peer closed). -/
theorem c7_recvall_stop :
    (∀ n data packets, countOccur dataSepL data = n →
      recvallGo n data packets = data) ∧
    (∀ n data, recvallGo n data [] = data) ∧
    (∀ n data rest, recvallGo n data ([] :: rest) = data) := by
  refine ⟨?_, ?_, ?_⟩
  · intro n data packets h
    cases packets with
    | nil => rfl
    | cons p rest => simp [recvallGo, h]
  · intro n data
    rfl
  · intro n data rest
    by_cases h : countOccur dataSepL data = n <;> simp [recvallGo, h]

/-- C7 witness: the stop conditions at concrete inputs. -/
theorem c7_recvall_stop_witness :
    recvallGo 0 [] ["abc".data] = [] :=
  c7_recvall_stop.1 0 [] ["abc".data] (by decide)

/-- C2 (code_bug): one attempt whose two responses parse fully but whose
first status (503) is in the forcelist.  The claim (and the spec's own
intended semantics) says the 200 response is resolved and only the 503
url is retried; the source instead evaluates
`[u for u in need_urls if not u in handled_urls]` with `handled_urls`
an undefined name, so the whole call raises `NameError` — the retry set
is never shrunk. -/
theorem c2_retry_shrink_name_error :
    http_pipelining_with_retries ["http://x/a", "http://x/b"] "HEAD" 2
      [500, 502, 503, 504]
      (fun _ => .recvd ("HTTP/1.1 503 SU\r\n\r\nHTTP/1.1 200 OK\r\n\r\n".data)) =
      .error .nameError := rfl

/-- C3 (code_bug): a partial frame (one complete response for two urls)
carries one salvaged response.  The claim says the orchestrator retries
to exhaustion and then raises a terminal error carrying all accumulated
responses; the source instead raises `NameError` on the first attempt,
and the raised error carries no responses at all. -/
theorem c3_terminal_payload_name_error :
    http_pipelining_with_retries ["http://x/a", "http://x/b"] "HEAD" 2
      [500, 502, 503, 504]
      (fun _ => .recvd ("HTTP/1.1 200 OK\r\n\r\n".data)) =
      .error .nameError := rfl

/-- C4 (code_bug): the spec's scenario C — first attempt yields 503 for
url a and 200 for url b, and a retry would yield 200 for a — should
terminate successfully with responses merged in original url order.  The
source never reaches the second attempt: the forcelist error's
`ready_responses` is non-empty, so the undefined-name filter raises
`NameError` (and the accumulation that follows it appends in attempt
order, not url order, so the claimed merge does not exist in the code). -/
theorem c4_merge_order_name_error :
    http_pipelining_with_retries ["http://x/a", "http://x/b"] "HEAD" 2 [503]
      (fun it => if it = 0
        then .recvd ("HTTP/1.1 503 SU\r\n\r\nHTTP/1.1 200 OK\r\n\r\n".data)
        else .recvd ("HTTP/1.1 200 OK\r\n\r\n".data)) =
      .error .nameError := rfl

/-- C8 (code_bug): a buffer holding one fully well-formed response and a
second response truncated inside its status head.  The claim says the
framer fails with an error carrying exactly the complete responses framed
so far; the source's framing loop re-raises the truncation exception
bare, so the error carries nothing — although the same prefix parsed
alone frames the first response completely. -/
theorem c8_bare_error_no_payload :
    parse_response "HEAD" ["http://x/a", "http://x/b"]
      ("HTTP/1.1 200 OK\r\n\r\nHTTP/1.1 200".data) = .error .parseFail ∧
    parse_response "HEAD" ["http://x/a"] ("HTTP/1.1 200 OK\r\n\r\n".data) =
      .ok [{ status_code := 200, reason := "OK", headers := [],
             content := none, url := "http://x/a" }] := ⟨rfl, rfl⟩

/-- C9: the empty url batch short-circuits: both entry points return the
empty response list for every possible network behaviour (hence without
depending on any connection), and never raise. -/
theorem c9_empty_batch :
    (∀ method net, http_pipelining [] method net = .ok []) ∧
    (∀ method maxRetries forcelist net,
      http_pipelining_with_retries [] method maxRetries forcelist net = .ok []) := by
  refine ⟨fun method net => rfl, fun method maxRetries forcelist net => ?_⟩
  cases maxRetries with
  | zero => rfl
  | succ r => rfl

/-- C10: a first url the regex does not match makes the entry point fail
with the `IndexError` of `re.findall(...)[0]` for every network
behaviour; when the url does match, that error cannot arise.  The url
`http://example.com` (no slash after the authority) and the non-http
scheme `ftp://h/x` are concrete non-matching inputs, while
`http://example.com/` matches. -/
theorem c10_unmatched_url_index_error :
    (∀ u rest method net, findUrlMatch u = none →
      http_pipelining (u :: rest) method net = .error .indexError) ∧
    (∀ u rest method net m, findUrlMatch u = some m →
      http_pipelining (u :: rest) method net ≠ .error .indexError) ∧
    findUrlMatch "http://example.com" = none ∧
    findUrlMatch "ftp://h/x" = none ∧
    findUrlMatch "http://example.com/" = some ("http", "example.com", none) := by
  refine ⟨?_, ?_, rfl, rfl, rfl⟩
  · intro u rest method net h
    simp [http_pipelining, h]
  · intro u rest method net m h
    simp only [http_pipelining, h]
    cases net with
    | connFail => simp
    | recvd data =>
      cases hp : parse_response method (u :: rest) data with
      | error e => cases e <;> simp [hp]
      | ok rs => simp [hp]

/-- C10 witness: the `IndexError` at the concrete non-matching url. -/
theorem c10_unmatched_url_index_error_witness :
    http_pipelining ["http://example.com"] "HEAD" (.recvd []) =
      .error .indexError :=
  c10_unmatched_url_index_error.1 "http://example.com" [] "HEAD" (.recvd [])
    (by decide)

end HttpPipelining
